import Mathlib

/-!
Shallow embedding of `node-web-gpio` (src/index.ts).

The filesystem is the external collaborator: it is modelled as an oracle
`World.oracle : Nat -> FSResult` answering the k-th filesystem operation
performed since the start of the scenario, together with a clock and a log
of every attempted filesystem interaction.  Stateful methods of `GPIOPort`
and `GPIOAccess` become functions threading the port state and the world.
JavaScript exceptions become `Except JSError`.  The single-threaded
cooperative model of the library (spec section 5) lets `unexportAll` be
embedded as the sequential linearization of its launched operations.
-/

/-- Result of one filesystem operation, as answered by the oracle:
`ok content` (content is only meaningful for `readFile`) or an error
carrying the message of the thrown fs error. -/
inductive FSResult where
  | ok (content : String)
  | err (msg : String)
  deriving DecidableEq, Repr

/-- One attempted filesystem interaction, as recorded in the world log. -/
inductive FSEvent where
  | access (path : String)
  | writeFile (path : String) (content : String)
  | readFile (path : String)
  deriving DecidableEq, Repr

/-- The external world: the oracle answering successive fs operations, the
number of fs operations performed so far, and the log of attempts. -/
structure World where
  oracle : Nat → FSResult
  clock : Nat
  log : List FSEvent

/-- `fs.access(path)`: succeeds iff the oracle answers `ok`. -/
def World.fsAccess (w : World) (p : String) : Bool × World :=
  ((match w.oracle w.clock with
    | FSResult.ok _ => true
    | FSResult.err _ => false),
   { w with clock := w.clock + 1, log := w.log ++ [FSEvent.access p] })

/-- `fs.writeFile(path, content)`: fails with the oracle's error message. -/
def World.fsWriteFile (w : World) (p content : String) :
    Except String Unit × World :=
  ((match w.oracle w.clock with
    | FSResult.ok _ => Except.ok ()
    | FSResult.err m => Except.error m),
   { w with clock := w.clock + 1, log := w.log ++ [FSEvent.writeFile p content] })

/-- `fs.readFile(path)`: returns the oracle's content, or fails. -/
def World.fsReadFile (w : World) (p : String) : Except String String × World :=
  ((match w.oracle w.clock with
    | FSResult.ok c => Except.ok c
    | FSResult.err m => Except.error m),
   { w with clock := w.clock + 1, log := w.log ++ [FSEvent.readFile p] })

/-- The three error classes thrown by the library: `InvalidAccessError` and
`OperationError` from src/index.ts, plus JavaScript's built-in `RangeError`
thrown by `parseUint16`. -/
inductive JSError where
  | InvalidAccessError (message : String)
  | RangeError (message : String)
  | OperationError (message : String)
  deriving DecidableEq, Repr

/-- Stringification of a caught error object, used when a caught error is
passed to `new OperationError(error)`. -/
def errString : JSError → String
  | JSError.InvalidAccessError m => "InvalidAccessError: " ++ m
  | JSError.RangeError m => "RangeError: " ++ m
  | JSError.OperationError m => "OperationError: " ++ m

/-- `const PollingInterval = 100`. -/
def PollingInterval : Nat := 100

/-- `const SysfsGPIOPath = '/sys/class/gpio'`. -/
def SysfsGPIOPath : String := "/sys/class/gpio"

/-- `const GPIOPortMapSizeMax = 1024`. -/
def GPIOPortMapSizeMax : Nat := 1024

/-- `const Uint16Max = 65535`. -/
def Uint16Max : Nat := 65535

/-- `path.join` on path segments. -/
def pathJoin (segments : List String) : String :=
  String.intercalate "/" segments

/-- JavaScript whitespace skipped by `Number.parseInt`. -/
def isJsWhitespace (c : Char) : Bool :=
  c = ' ' ∨ c = '\t' ∨ c = '\n' ∨ c = '\x0d' ∨ c = '\x0b' ∨ c = '\x0c'

/-- Accumulates the longest leading run of decimal digits;
`none` when no digit was consumed (`parseInt` returns NaN). -/
def parseDigits : List Char → Option Nat → Option Nat
  | [], acc => acc
  | c :: cs, acc =>
    if c.isDigit then parseDigits cs (some (10 * acc.getD 0 + (c.toNat - 48)))
    else acc

/-- `Number.parseInt(s, 10)`: skip whitespace, optional sign, longest digit
prefix; `none` models NaN. -/
def jsParseInt (s : String) : Option Int :=
  match s.data.dropWhile isJsWhitespace with
  | '-' :: rest => (parseDigits rest none).map (fun n => -(n : Int))
  | '+' :: rest => (parseDigits rest none).map (fun n => (n : Int))
  | cs => (parseDigits cs none).map (fun n => (n : Int))

/-- `parseUint16`: `Number.parseInt(s, 10)`, accepted iff `0 <= n <= 65535`,
otherwise `RangeError` (a NaN result fails both comparisons and also lands
in the `RangeError` branch). -/
def parseUint16 (parseString : String) : Except JSError Nat :=
  match jsParseInt parseString with
  | some n =>
    if 0 ≤ n ∧ n ≤ (Uint16Max : Int) then Except.ok n.toNat
    else Except.error
      (JSError.RangeError ("Must be between 0 and " ++ toString Uint16Max ++ "."))
  | none => Except.error
      (JSError.RangeError ("Must be between 0 and " ++ toString Uint16Max ++ "."))

/-- `_direction : DirectionMode | OperationError`: the field holds either the
stored `OperationError` sentinel or a direction string. -/
inductive DirectionField where
  | opError (message : String)
  | mode (d : String)
  deriving DecidableEq, Repr

/-- `_exported : boolean | OperationError`: the field holds either the stored
`OperationError` sentinel or a boolean. -/
inductive ExportedField where
  | opError (message : String)
  | val (b : Bool)
  deriving DecidableEq, Repr

/-- In-memory state of one `GPIOPort` instance: the private fields
`_portNumber`, `_pollingInterval`, `_direction`, `_exported`, `_exportRetry`,
`_value`, and whether a poll interval is currently scheduled (`_timeout`). -/
structure GPIOPort where
  portNumber : Nat
  pollingInterval : Nat
  direction : DirectionField
  exported : ExportedField
  exportRetry : Nat
  value : Option Nat
  timeout : Bool
  deriving DecidableEq, Repr

/-- A change event `{ value, port }`; the originating port is identified by
its port number. -/
structure GPIOChangeEvent where
  value : Nat
  portNumber : Nat
  deriving DecidableEq, Repr

/-- The `GPIOPort` constructor:
`this._portNumber = parseUint16(portNumber.toString()) + GpioOffset` (the
platform offset `GpioOffset` is 0 or 512 depending on kernel version and is
passed here as a parameter), then the two `OperationError` sentinels,
`_exportRetry = 0`, `_value` and `_timeout` unset.  `parseUint16` can throw,
so construction is fallible. -/
def GPIOPort.mkState (gpioOffset : Nat) (portNumber : Nat) :
    Except JSError GPIOPort :=
  match parseUint16 (toString portNumber) with
  | Except.error e => Except.error e
  | Except.ok n =>
    Except.ok
      { portNumber := n + gpioOffset
        pollingInterval := PollingInterval
        direction := DirectionField.opError "Unknown direction."
        exported := ExportedField.opError "Unknown export."
        exportRetry := 0
        value := none
        timeout := false }

/-- `get portName()`: the string `gpio<N>`. -/
def GPIOPort.portName (s : GPIOPort) : String :=
  "gpio" ++ toString s.portNumber

/-- The `direction` getter: throws the stored `OperationError` while the
field holds the sentinel. -/
def GPIOPort.directionGet (s : GPIOPort) : Except JSError String :=
  match s.direction with
  | DirectionField.opError m => Except.error (JSError.OperationError m)
  | DirectionField.mode d => Except.ok d

/-- The `exported` getter: throws the stored `OperationError` while the
field holds the sentinel. -/
def GPIOPort.exportedGet (s : GPIOPort) : Except JSError Bool :=
  match s.exported with
  | ExportedField.opError m => Except.error (JSError.OperationError m)
  | ExportedField.val b => Except.ok b

/-- The fs part of the try block of `GPIOPort.export`, given the result
`pa1` of the `fs.access` probe (the `exported` getter consulted by
`if (!this.exported)` always sees the boolean the probe just stored): when
not already exported, write the port number to the `export` control file; in
either case write the direction string to the pin's `direction` file.  The
first failure aborts the block with the caught error message. -/
def GPIOPort.exportTry (direction : String) (s : GPIOPort) (pa1 : Bool)
    (w : World) : Except String Unit × World :=
  if pa1 then
    w.fsWriteFile (pathJoin [SysfsGPIOPath, s.portName, "direction"]) direction
  else
    let ew := w.fsWriteFile (pathJoin [SysfsGPIOPath, "export"])
      (toString s.portNumber)
    match ew.1 with
    | Except.error m => (Except.error m, ew.2)
    | Except.ok _ =>
      (ew.2).fsWriteFile (pathJoin [SysfsGPIOPath, s.portName, "direction"])
        direction

/-- `GPIOPort.export(direction)`:
validation against the regex `^(in|out)$`; the `fs.access` probe setting
`_exported` to the probe result; then the try block (`clearInterval`, the
conditional write to the `export` control file — guarded by the `exported`
getter, which here always sees the boolean just stored by the probe —, the
write to the pin's `direction` file, and `setInterval` for direction `"in"`,
which is the final statement of the try block and cannot fail); on a caught
fs error either backoff-and-retry (recursively, after `++this._exportRetry`,
while `_exportRetry < 10`) or `throw new OperationError(error)`; finally, on
every non-throwing path, `this._direction = direction; this._exported = true`
(these two assignments also run in each enclosing frame of a successful
recursive retry). -/
def GPIOPort.«export» (direction : String) (s : GPIOPort) (w : World) :
    Except JSError Unit × GPIOPort × World :=
  if ¬(direction = "in" ∨ direction = "out") then
    (Except.error (JSError.InvalidAccessError "Must be \"in\" or \"out\"."), s, w)
  else
    let pa := w.fsAccess (pathJoin [SysfsGPIOPath, s.portName])
    let body := GPIOPort.exportTry direction s pa.1 pa.2
    match body.1 with
    | Except.ok _ =>
      (Except.ok (),
       { s with exported := ExportedField.val true
                timeout := direction = "in"
                direction := DirectionField.mode direction },
       body.2)
    | Except.error m =>
      if h : s.exportRetry < 10 then
        let r := GPIOPort.«export» direction
          { s with exported := ExportedField.val pa.1
                   timeout := false
                   exportRetry := s.exportRetry + 1 }
          body.2
        match r.1 with
        | Except.ok _ =>
          (Except.ok (),
           { r.2.1 with direction := DirectionField.mode direction
                        exported := ExportedField.val true },
           r.2.2)
        | Except.error e => (Except.error e, r.2.1, r.2.2)
      else
        (Except.error (JSError.OperationError m),
         { s with exported := ExportedField.val pa.1, timeout := false },
         body.2)
termination_by 10 - s.exportRetry
decreasing_by simp; omega

/-- `GPIOPort.unexport()`: `clearInterval`; the write to the `unexport`
control file, a failure being rethrown as `OperationError`; only then
`this._exported = false` (the assignment sits after the try/catch, so it is
not reached when the write failed). -/
def GPIOPort.unexport (s : GPIOPort) (w : World) :
    Except JSError Unit × GPIOPort × World :=
  let s1 := { s with timeout := false }
  let wr := w.fsWriteFile (pathJoin [SysfsGPIOPath, "unexport"])
    (toString s.portNumber)
  match wr.1 with
  | Except.error m => (Except.error (JSError.OperationError m), s1, wr.2)
  | Except.ok _ =>
    (Except.ok (), { s1 with exported := ExportedField.val false }, wr.2)

/-- `GPIOPort.read()`: the guard `!(this.exported && this.direction === 'in')`
evaluated with JavaScript getter/short-circuit semantics (the `exported`
getter may throw its stored sentinel; when it yields `false` the `direction`
getter is not consulted); then, inside try/catch, `fs.readFile` of the pin's
`value` file, `parseUint16` of its content, the conditional update of
`_value` with a single `change` event emission when the parsed value differs,
and the parsed value returned; every error caught in the try block (fs
failure or `RangeError`) is rethrown as `OperationError`. -/
def GPIOPort.read (s : GPIOPort) (w : World) :
    Except JSError Nat × GPIOPort × World × List GPIOChangeEvent :=
  match s.exported with
  | ExportedField.opError m => (Except.error (JSError.OperationError m), s, w, [])
  | ExportedField.val e =>
    if e = false then
      (Except.error (JSError.InvalidAccessError
        "The exported must be true and value of direction must be \"in\"."),
       s, w, [])
    else
      match s.direction with
      | DirectionField.opError m =>
        (Except.error (JSError.OperationError m), s, w, [])
      | DirectionField.mode d =>
        if d ≠ "in" then
          (Except.error (JSError.InvalidAccessError
            "The exported must be true and value of direction must be \"in\"."),
           s, w, [])
        else
          let rr := w.fsReadFile (pathJoin [SysfsGPIOPath, s.portName, "value"])
          match rr.1 with
          | Except.error m =>
            (Except.error (JSError.OperationError m), s, rr.2, [])
          | Except.ok buffer =>
            match parseUint16 buffer with
            | Except.error e =>
              (Except.error (JSError.OperationError (errString e)), s, rr.2, [])
            | Except.ok value =>
              if s.value ≠ some value then
                (Except.ok value, { s with value := some value }, rr.2,
                 [{ value := value, portNumber := s.portNumber }])
              else
                (Except.ok value, s, rr.2, [])

/-- `GPIOPort.write(value)`: the guard
`!(this.exported && this.direction === 'out')` with the same getter
semantics as `read`; then, inside try/catch,
`fs.writeFile(..., parseUint16(value.toString()).toString())` — the
argument is evaluated first, so a `RangeError` from `parseUint16` prevents
the write; every caught error is rethrown as `OperationError`.  The runtime
argument is any JavaScript number with integral value, hence `Int`. -/
def GPIOPort.write (value : Int) (s : GPIOPort) (w : World) :
    Except JSError Unit × GPIOPort × World :=
  match s.exported with
  | ExportedField.opError m => (Except.error (JSError.OperationError m), s, w)
  | ExportedField.val e =>
    if e = false then
      (Except.error (JSError.InvalidAccessError
        "The exported must be true and value of direction must be \"out\"."),
       s, w)
    else
      match s.direction with
      | DirectionField.opError m =>
        (Except.error (JSError.OperationError m), s, w)
      | DirectionField.mode d =>
        if d ≠ "out" then
          (Except.error (JSError.InvalidAccessError
            "The exported must be true and value of direction must be \"out\"."),
           s, w)
        else
          match parseUint16 (toString value) with
          | Except.error e =>
            (Except.error (JSError.OperationError (errString e)), s, w)
          | Except.ok n =>
            let wr := w.fsWriteFile
              (pathJoin [SysfsGPIOPath, s.portName, "value"]) (toString n)
            match wr.1 with
            | Except.error m => (Except.error (JSError.OperationError m), s, wr.2)
            | Except.ok _ => (Except.ok (), s, wr.2)

/-- `Promise.all` settles with its first rejection: the error already
retained, or the one a newly settled invocation raised. -/
def combineFirstErr (firstErr : Option JSError) (r : Except JSError Unit) :
    Option JSError :=
  match firstErr with
  | some e => some e
  | none =>
    match r with
    | Except.error e => some e
    | Except.ok _ => none

/-- Worker for `unexportAll`: the sequential linearization of
`Promise.all([...ports.values()].map(port => port.exported ? port.unexport() : undefined))`.
The `map` callback runs synchronously port by port: reading `port.exported`
on a port still holding the sentinel throws, aborting the iteration (the
invocations already launched still run to completion — their effects are in
the accumulated state); a port with the flag `false` is skipped; a port with
the flag `true` has `unexport` invoked on it, a failure becoming part of the
settled aggregate — the first failure is the one `Promise.all` rejects with. -/
def GPIOAccess.unexportAllGo (acc : List (Nat × GPIOPort))
    (firstErr : Option JSError) :
    List (Nat × GPIOPort) → World →
      Except JSError Unit × List (Nat × GPIOPort) × World
  | [], w =>
    ((match firstErr with
      | some e => Except.error e
      | none => Except.ok ()),
     acc.reverse, w)
  | (n, s) :: rest, w =>
    match s.exported with
    | ExportedField.opError m =>
      (Except.error (JSError.OperationError m),
       acc.reverse ++ (n, s) :: rest, w)
    | ExportedField.val false =>
      GPIOAccess.unexportAllGo ((n, s) :: acc) firstErr rest w
    | ExportedField.val true =>
      let r := GPIOPort.unexport s w
      GPIOAccess.unexportAllGo ((n, r.2.1) :: acc)
        (combineFirstErr firstErr r.1) rest r.2.2

/-- `GPIOAccess.unexportAll()` over the handle's port registry. -/
def GPIOAccess.unexportAll (ports : List (Nat × GPIOPort)) (w : World) :
    Except JSError Unit × List (Nat × GPIOPort) × World :=
  GPIOAccess.unexportAllGo [] none ports w

/-- `requestGPIOAccess()`: builds the `GPIOPortMap` from
`[...Array(GPIOPortMapSizeMax).keys()].map(n => [n, new GPIOPort(n)])` —
an insertion-ordered association list keyed 0..1023, each entry a freshly
constructed port.  A constructor throw would propagate (it cannot for these
indices, as proved below). -/
def requestGPIOAccess (gpioOffset : Nat) :
    Except JSError (List (Nat × GPIOPort)) :=
  (List.range GPIOPortMapSizeMax).mapM (fun n =>
    match GPIOPort.mkState gpioOffset n with
    | Except.error e => Except.error e
    | Except.ok p => Except.ok (n, p))

/-- Whether `_exported` holds a boolean (rather than the stored sentinel). -/
def ExportedField.isKnown : ExportedField → Bool
  | ExportedField.opError _ => false
  | ExportedField.val _ => true

/-- The single filesystem interaction performed by `unexport` on a port. -/
def unexportEvent (s : GPIOPort) : FSEvent :=
  FSEvent.writeFile (pathJoin [SysfsGPIOPath, "unexport"]) (toString s.portNumber)

/-- The state of a freshly constructed port for an in-range port number. -/
def freshPortState (gpioOffset n : Nat) : GPIOPort :=
  { portNumber := n + gpioOffset
    pollingInterval := PollingInterval
    direction := DirectionField.opError "Unknown direction."
    exported := ExportedField.opError "Unknown export."
    exportRetry := 0
    value := none
    timeout := false }

/-! Concrete fixtures used by counterexamples and witnesses. -/

/-- A freshly constructed port number 7 (both sentinels stored, retry 0). -/
def portFresh : GPIOPort :=
  { portNumber := 7
    pollingInterval := 100
    direction := DirectionField.opError "Unknown direction."
    exported := ExportedField.opError "Unknown export."
    exportRetry := 0
    value := none
    timeout := false }

/-- Port 7 exported with direction `"in"`. -/
def portIn : GPIOPort :=
  { portFresh with direction := DirectionField.mode "in"
                   exported := ExportedField.val true }

/-- Port 7 exported with direction `"out"`. -/
def portOut : GPIOPort :=
  { portFresh with direction := DirectionField.mode "out"
                   exported := ExportedField.val true }

/-- A world whose filesystem answers every operation with `ok c`. -/
def worldOk (c : String) : World :=
  { oracle := fun _ => FSResult.ok c, clock := 0, log := [] }

/-- A world whose filesystem fails every operation with message `EIO`. -/
def worldErr : World :=
  { oracle := fun _ => FSResult.err "EIO", clock := 0, log := [] }

/-- C1 counterexample: port 7 is exported (`_exported = true`); the write to
the `unexport` control file fails with `EIO`; `unexport()` raises an
`OperationError`, yet afterwards the exported state is still `true`, not
`false` as the claim requires. -/
theorem c1_counterexample :
    (GPIOPort.unexport portOut worldErr).1
      = Except.error (JSError.OperationError "EIO")
    ∧ (GPIOPort.unexport portOut worldErr).2.1.exported = ExportedField.val true :=
  ⟨rfl, rfl⟩

/-- C1 (amended): `unexport()` sets the exported state to `false` exactly
when the write to the `unexport` control file succeeds; when the write fails
it raises an `OperationError` and leaves the exported field unchanged (the
`this._exported = false` assignment sits after the rethrowing try/catch and
is not reached). -/
theorem c1_unexport_exported_flag (s : GPIOPort) (w : World) :
    match GPIOPort.unexport s w with
    | (Except.ok _, s1, _) => s1.exported = ExportedField.val false
    | (Except.error e, s1, _) =>
        s1.exported = s.exported ∧ ∃ m, e = JSError.OperationError m := by
  simp only [GPIOPort.unexport, World.fsWriteFile]
  cases h : w.oracle w.clock <;> simp [h]

/-- C3 counterexample: an exported input port whose `value` control file
reads back `"5"`; `read()` returns `5` instead of raising the range error
the claim requires for parsed values outside `{0,1}`. -/
theorem c3_counterexample :
    (GPIOPort.read portIn (worldOk "5")).1 = Except.ok 5 := rfl

/-- C3 (amended): on an exported input port whose `value` file is readable,
`read()` parses the content with `parseUint16`, which accepts the whole
unsigned 16-bit range 0..65535 — not just `{0,1}` — and returns any accepted
value as-is; a parse failure or out-of-range value raises the `RangeError`
rethrown through the operation-error channel. -/
theorem c3_read_parses_uint16 (s : GPIOPort) (w : World)
    (h1 : s.exported = ExportedField.val true)
    (h2 : s.direction = DirectionField.mode "in")
    (content : String) (hr : w.oracle w.clock = FSResult.ok content) :
    (match parseUint16 content with
     | Except.ok n => (GPIOPort.read s w).1 = Except.ok n
     | Except.error e =>
       (GPIOPort.read s w).1
         = Except.error (JSError.OperationError (errString e))) := by
  simp only [GPIOPort.read, World.fsReadFile, h1, h2, hr]
  cases hp : parseUint16 content <;> simp [hp]
  split <;> simp

/-- C3 witness: the amended theorem applied to port 7 exported `"in"` with
file content `"1"`. -/
theorem c3_witness :
    (GPIOPort.read portIn (worldOk "1")).1 = Except.ok 1 :=
  c3_read_parses_uint16 portIn (worldOk "1") rfl rfl "1" rfl

/-- C4 counterexample: an exported output port; `write(5)` succeeds and
writes `"5"` to the pin's `value` control file, instead of raising the
range-related operation error the claim requires for values outside
`{0,1}`. -/
theorem c4_counterexample :
    (GPIOPort.write 5 portOut (worldOk "")).1 = Except.ok ()
    ∧ (GPIOPort.write 5 portOut (worldOk "")).2.2.log
        = [FSEvent.writeFile "/sys/class/gpio/gpio7/value" "5"] :=
  ⟨rfl, rfl⟩

/-- C4 (amended): on an exported output port, `write(value)` validates the
value with `parseUint16` against the unsigned 16-bit range 0..65535, not
`{0,1}`: an out-of-range or non-numeric value raises the `RangeError`
rethrown as `OperationError` and nothing is written; any value in 0..65535
(including 2..65535) is written to the pin's `value` control file. -/
theorem c4_write_validates_uint16 (value : Int) (s : GPIOPort) (w : World)
    (h1 : s.exported = ExportedField.val true)
    (h2 : s.direction = DirectionField.mode "out") :
    match parseUint16 (toString value) with
    | Except.error e =>
        (GPIOPort.write value s w).1
          = Except.error (JSError.OperationError (errString e))
        ∧ (GPIOPort.write value s w).2.2.log = w.log
    | Except.ok n =>
        (GPIOPort.write value s w).2.2.log
          = w.log ++ [FSEvent.writeFile
              (pathJoin [SysfsGPIOPath, s.portName, "value"]) (toString n)] := by
  simp only [GPIOPort.write, World.fsWriteFile, h1, h2]
  cases hp : parseUint16 (toString value) <;> simp [hp]
  cases h : w.oracle w.clock <;> simp [h]

/-- C4 witness: the amended theorem applied to `write(-1)` on port 7
exported `"out"`: the value is rejected and no fs write is attempted. -/
theorem c4_witness :
    (GPIOPort.write (-1) portOut (worldOk "")).1
      = Except.error (JSError.OperationError
          (errString (JSError.RangeError "Must be between 0 and 65535.")))
    ∧ (GPIOPort.write (-1) portOut (worldOk "")).2.2.log = (worldOk "").log :=
  c4_write_validates_uint16 (-1) portOut (worldOk "") rfl rfl

/-- C6 counterexample: a port on which `export` never completed still holds
the `OperationError` sentinel in `_exported`; `read()` then throws that
stored `OperationError` (from the `exported` getter), not the
invalid-access error the claim requires. -/
theorem c6_counterexample :
    (GPIOPort.read portFresh (worldOk "0")).1
      = Except.error (JSError.OperationError "Unknown export.") := rfl

/-- C6 (amended): `read()` rejects misuse before touching `_value` or the
filesystem, but the error kind depends on how the port is not readable: a
port whose exported state is still the unknown sentinel raises the stored
`OperationError`; a port with exported `false` (e.g. after `unexport`)
raises `InvalidAccessError`; a port exported with direction `"out"` raises
`InvalidAccessError`.  The port state (in particular `lastValue`) is
unchanged in all three cases. -/
theorem c6_read_guard (s : GPIOPort) (w : World) :
    ((∃ m, s.exported = ExportedField.opError m) →
        (∃ m, (GPIOPort.read s w).1
            = Except.error (JSError.OperationError m))
        ∧ (GPIOPort.read s w).2.1 = s)
    ∧ (s.exported = ExportedField.val false →
        (∃ m, (GPIOPort.read s w).1
            = Except.error (JSError.InvalidAccessError m))
        ∧ (GPIOPort.read s w).2.1 = s)
    ∧ (s.exported = ExportedField.val true →
        s.direction = DirectionField.mode "out" →
        (∃ m, (GPIOPort.read s w).1
            = Except.error (JSError.InvalidAccessError m))
        ∧ (GPIOPort.read s w).2.1 = s) := by
  refine ⟨?_, ?_, ?_⟩
  · rintro ⟨m, hm⟩
    simp [GPIOPort.read, hm]
  · intro hm
    simp [GPIOPort.read, hm]
  · intro hm hd
    simp [GPIOPort.read, hm, hd]

/-- C6 witness: the amended theorem applied to the fresh port 7. -/
theorem c6_witness :
    (∃ m, (GPIOPort.read portFresh (worldOk "0")).1
        = Except.error (JSError.OperationError m))
    ∧ (GPIOPort.read portFresh (worldOk "0")).2.1 = portFresh :=
  (c6_read_guard portFresh (worldOk "0")).1 ⟨"Unknown export.", rfl⟩

/-- C8: on an exported input port, a non-erroring `read()` returns the
parsed value `v`; when `v` differs from `lastValue` — in particular on the
first successful read, when `lastValue` is still unset — it updates
`lastValue` to `v` and emits exactly one change notification carrying `v`
and the originating port; when `v` equals `lastValue` it emits nothing and
leaves the state unchanged.  An erroring read emits nothing and changes
nothing. -/
theorem c8_read_change_notification (s : GPIOPort) (w : World)
    (h1 : s.exported = ExportedField.val true)
    (h2 : s.direction = DirectionField.mode "in") :
    match GPIOPort.read s w with
    | (Except.ok v, s1, _, evs) =>
        (s.value ≠ some v →
           evs = [{ value := v, portNumber := s.portNumber }]
           ∧ s1.value = some v)
        ∧ (s.value = some v → evs = [] ∧ s1 = s)
    | (Except.error _, s1, _, evs) => s1 = s ∧ evs = [] := by
  simp only [GPIOPort.read, World.fsReadFile, h1, h2]
  cases h : w.oracle w.clock <;> simp [h]
  cases hp : parseUint16 _ with
  | error e => simp [hp]
  | ok v =>
    simp only [hp]
    by_cases hv : s.value = some v <;> simp [hv]

/-- C8 witness: the theorem applied to port 7 exported `"in"` reading
`"1"`. -/
theorem c8_witness :
    match GPIOPort.read portIn (worldOk "1") with
    | (Except.ok v, s1, _, evs) =>
        (portIn.value ≠ some v →
           evs = [{ value := v, portNumber := portIn.portNumber }]
           ∧ s1.value = some v)
        ∧ (portIn.value = some v → evs = [] ∧ s1 = portIn)
    | (Except.error _, s1, _, evs) => s1 = portIn ∧ evs = [] :=
  c8_read_change_notification portIn (worldOk "1") rfl rfl

/-- Facts about one `export` call, proved along the retry recursion
(`k` bounds the remaining retry budget `10 - exportRetry`): a successful
call ends with `_direction = direction` and `_exported = true`; a failing
call raises an `OperationError`, leaves `_direction` untouched, leaves
`_exported` holding the boolean stored by the last `fs.access` probe, and
ends with `_exportRetry = max exportRetry 10`; and `_exportRetry` never
decreases and never exceeds `max exportRetry 10`. -/
theorem export_state_facts (d : String) :
    ∀ (k : Nat) (s : GPIOPort) (w : World), 10 - s.exportRetry ≤ k →
      (d = "in" ∨ d = "out") →
      ((GPIOPort.«export» d s w).1 = Except.ok () →
         (GPIOPort.«export» d s w).2.1.direction = DirectionField.mode d
         ∧ (GPIOPort.«export» d s w).2.1.exported = ExportedField.val true)
      ∧ (∀ e, (GPIOPort.«export» d s w).1 = Except.error e →
         (∃ m, e = JSError.OperationError m)
         ∧ (GPIOPort.«export» d s w).2.1.direction = s.direction
         ∧ (∃ b, (GPIOPort.«export» d s w).2.1.exported = ExportedField.val b)
         ∧ (GPIOPort.«export» d s w).2.1.exportRetry = max s.exportRetry 10)
      ∧ (s.exportRetry ≤ (GPIOPort.«export» d s w).2.1.exportRetry
         ∧ (GPIOPort.«export» d s w).2.1.exportRetry ≤ max s.exportRetry 10) := by
  intro k
  induction k with
  | zero =>
    intro s w hk hd
    rw [GPIOPort.«export».eq_def, if_neg (not_not_intro hd)]
    simp only []
    generalize w.fsAccess (pathJoin [SysfsGPIOPath, s.portName]) = pa
    split
    · exact ⟨fun _ => ⟨rfl, rfl⟩, fun e he => by simp at he, by simp <;> omega⟩
    · rw [dif_neg (by omega)]
      refine ⟨fun h => by simp at h, fun e he => ?_, by simp <;> omega⟩
      simp only [Prod.fst] at he
      cases he
      exact ⟨⟨_, rfl⟩, rfl, ⟨_, rfl⟩, by simp <;> omega⟩
  | succ k ih =>
    intro s w hk hd
    rw [GPIOPort.«export».eq_def, if_neg (not_not_intro hd)]
    simp only []
    generalize w.fsAccess (pathJoin [SysfsGPIOPath, s.portName]) = pa
    split
    · exact ⟨fun _ => ⟨rfl, rfl⟩, fun e he => by simp at he, by simp <;> omega⟩
    · by_cases hlt : s.exportRetry < 10
      · rw [dif_pos hlt]
        have H := ih
          { portNumber := s.portNumber, pollingInterval := s.pollingInterval,
            direction := s.direction, exported := ExportedField.val pa.1,
            exportRetry := s.exportRetry + 1, value := s.value, timeout := false }
          (GPIOPort.exportTry d s pa.1 pa.2).2 (by simp <;> omega) hd
        split
        · refine ⟨fun _ => ⟨rfl, rfl⟩, fun e he => by simp at he, ?_⟩
          have h1 : s.exportRetry + 1 ≤
              (GPIOPort.«export» d
                { portNumber := s.portNumber, pollingInterval := s.pollingInterval,
                  direction := s.direction, exported := ExportedField.val pa.1,
                  exportRetry := s.exportRetry + 1, value := s.value,
                  timeout := false }
                (GPIOPort.exportTry d s pa.1 pa.2).2).2.1.exportRetry := H.2.2.1
          have h2 : (GPIOPort.«export» d
                { portNumber := s.portNumber, pollingInterval := s.pollingInterval,
                  direction := s.direction, exported := ExportedField.val pa.1,
                  exportRetry := s.exportRetry + 1, value := s.value,
                  timeout := false }
                (GPIOPort.exportTry d s pa.1 pa.2).2).2.1.exportRetry
              ≤ max (s.exportRetry + 1) 10 := H.2.2.2
          constructor <;> simp <;> omega
        · next e2 hr =>
          have HE := H.2.1 e2 hr
          have hdir : (GPIOPort.«export» d
                { portNumber := s.portNumber, pollingInterval := s.pollingInterval,
                  direction := s.direction, exported := ExportedField.val pa.1,
                  exportRetry := s.exportRetry + 1, value := s.value,
                  timeout := false }
                (GPIOPort.exportTry d s pa.1 pa.2).2).2.1.direction = s.direction :=
            HE.2.1
          have hret : (GPIOPort.«export» d
                { portNumber := s.portNumber, pollingInterval := s.pollingInterval,
                  direction := s.direction, exported := ExportedField.val pa.1,
                  exportRetry := s.exportRetry + 1, value := s.value,
                  timeout := false }
                (GPIOPort.exportTry d s pa.1 pa.2).2).2.1.exportRetry
              = max (s.exportRetry + 1) 10 := HE.2.2.2
          refine ⟨fun h => by simp at h, fun e3 he3 => ?_, by simp <;> omega⟩
          simp only [Prod.fst] at he3
          cases he3
          exact ⟨HE.1, hdir, HE.2.2.1, by simp <;> omega⟩
      · rw [dif_neg hlt]
        refine ⟨fun h => by simp at h, fun e he => ?_, by simp <;> omega⟩
        simp only [Prod.fst] at he
        cases he
        exact ⟨⟨_, rfl⟩, rfl, ⟨_, rfl⟩, by simp <;> omega⟩

/-- For an invalid direction string, `export` raises `InvalidAccessError`
and returns the state unchanged. -/
theorem export_invalid_direction (d : String) (s : GPIOPort) (w : World)
    (hd : ¬(d = "in" ∨ d = "out")) :
    GPIOPort.«export» d s w
      = (Except.error (JSError.InvalidAccessError "Must be \"in\" or \"out\"."),
         s, w) := by
  rw [GPIOPort.«export».eq_def, if_pos hd]

/-- C5 counterexample: the freshly constructed port 7 (both fields hold the
unknown sentinel) runs `export("in")` against a filesystem failing every
operation; after the raising call, `_exported` holds the known boolean
`false` (stored by the access probe) while `_direction` still holds the
unknown sentinel — one field left the unknown state without the other. -/
theorem c5_counterexample :
    (GPIOPort.«export» "in" portFresh worldErr).2.1.exported
      = ExportedField.val false
    ∧ (GPIOPort.«export» "in" portFresh worldErr).2.1.direction
      = DirectionField.opError "Unknown direction." := by
  constructor <;>
    simp [GPIOPort.«export».eq_def, GPIOPort.exportTry, World.fsAccess,
      World.fsWriteFile, portFresh, worldErr, GPIOPort.portName, pathJoin]

/-- C5 (amended): `direction` and `exported` start in the unknown sentinel
state together (constructor) and are set together — to the requested mode
and `true` — at the end of every successful `export` call; but a failing
`export` breaks the invariant: it can leave `exported` known (the access
probe result) while `direction` is still unknown. -/
theorem c5_known_together (d : String) (s : GPIOPort) (w : World) :
    ((GPIOPort.«export» d s w).1 = Except.ok () →
       (GPIOPort.«export» d s w).2.1.direction = DirectionField.mode d
       ∧ (GPIOPort.«export» d s w).2.1.exported = ExportedField.val true)
    ∧ (∀ gpioOffset n s0, GPIOPort.mkState gpioOffset n = Except.ok s0 →
        s0.direction = DirectionField.opError "Unknown direction."
        ∧ s0.exported = ExportedField.opError "Unknown export.") := by
  constructor
  · by_cases hd : d = "in" ∨ d = "out"
    · exact (export_state_facts d (10 - s.exportRetry) s w (le_refl _) hd).1
    · rw [export_invalid_direction d s w hd]
      intro h
      simp at h
  · intro gpioOffset n s0 h
    unfold GPIOPort.mkState at h
    cases hp : parseUint16 (toString n) <;> rw [hp] at h
    · cases h
    · cases h
      exact ⟨rfl, rfl⟩

/-- C5 witness: a successful `export("out")` on the fresh port 7 sets both
fields, and the constructed port 7 has both sentinels. -/
theorem c5_witness :
    ((GPIOPort.«export» "out" portFresh (worldOk "")).2.1.direction
        = DirectionField.mode "out"
     ∧ (GPIOPort.«export» "out" portFresh (worldOk "")).2.1.exported
        = ExportedField.val true)
    ∧ (portFresh.direction = DirectionField.opError "Unknown direction."
       ∧ portFresh.exported = ExportedField.opError "Unknown export.") :=
  ⟨(c5_known_together "out" portFresh (worldOk "")).1
    (by simp [GPIOPort.«export».eq_def, GPIOPort.exportTry, World.fsAccess,
      World.fsWriteFile, portFresh, worldOk, GPIOPort.portName, pathJoin]),
   (c5_known_together "out" portFresh (worldOk "")).2 0 7 portFresh rfl⟩

/-- C7 counterexample: the fresh port 7 (exported holds the unknown
sentinel) runs `export("in")` against an always-failing filesystem; the
retry bound is exhausted and an `OperationError` is raised, but `exported`
is NOT left in its prior (sentinel) state: it now holds the known boolean
`false` stored by the access probe. -/
theorem c7_counterexample :
    (GPIOPort.«export» "in" portFresh worldErr).1
      = Except.error (JSError.OperationError "EIO")
    ∧ portFresh.exported = ExportedField.opError "Unknown export."
    ∧ (GPIOPort.«export» "in" portFresh worldErr).2.1.exported
      = ExportedField.val false := by
  refine ⟨?_, rfl, ?_⟩ <;>
    simp [GPIOPort.«export».eq_def, GPIOPort.exportTry, World.fsAccess,
      World.fsWriteFile, portFresh, worldErr, GPIOPort.portName, pathJoin]

/-- C7 (amended): when `export` with a valid direction fails (the retry
bound of 10 is exceeded), it raises an `OperationError` carrying the
underlying cause, leaves `direction` in the state it had before the call,
and ends with the retry budget exhausted (`exportRetry = max prior 10`);
`exported`, however, is not restored: it holds the boolean stored by the
last `fs.access` probe (`false` when the pin directory is absent). -/
theorem c7_export_failure_state (d : String) (s : GPIOPort) (w : World)
    (hd : d = "in" ∨ d = "out") (e : JSError)
    (he : (GPIOPort.«export» d s w).1 = Except.error e) :
    (∃ m, e = JSError.OperationError m)
    ∧ (GPIOPort.«export» d s w).2.1.direction = s.direction
    ∧ (∃ b, (GPIOPort.«export» d s w).2.1.exported = ExportedField.val b)
    ∧ (GPIOPort.«export» d s w).2.1.exportRetry = max s.exportRetry 10 :=
  (export_state_facts d (10 - s.exportRetry) s w (le_refl _) hd).2.1 e he

/-- C7 witness: the amended theorem applied to the fresh port 7 with an
always-failing filesystem. -/
theorem c7_witness :
    (∃ m, (JSError.OperationError "EIO" : JSError) = JSError.OperationError m)
    ∧ (GPIOPort.«export» "in" portFresh worldErr).2.1.direction
        = portFresh.direction
    ∧ (∃ b, (GPIOPort.«export» "in" portFresh worldErr).2.1.exported
        = ExportedField.val b)
    ∧ (GPIOPort.«export» "in" portFresh worldErr).2.1.exportRetry
        = max portFresh.exportRetry 10 :=
  c7_export_failure_state "in" portFresh worldErr (Or.inl rfl)
    (JSError.OperationError "EIO")
    (by simp [GPIOPort.«export».eq_def, GPIOPort.exportTry, World.fsAccess,
      World.fsWriteFile, portFresh, worldErr, GPIOPort.portName, pathJoin])

/-- C10: the export retry counter starts at 0 at construction, never
decreases across `export` (and is untouched by `unexport`, `read` and
`write`), and a single `export` call never pushes it beyond
`max prior 10` — so the retry branch (backoff plus recursive re-attempt),
which increments the counter by exactly 1 each time it runs and is guarded
by `exportRetry < 10`, runs at most 10 times over the whole lifetime of a
port, across all `export` calls together; the recursion terminates (the
embedded `export` is total, by well-founded recursion on `10 - exportRetry`). -/
theorem c10_export_retry_counter (d : String) (s : GPIOPort) (w : World) :
    (s.exportRetry ≤ (GPIOPort.«export» d s w).2.1.exportRetry
      ∧ (GPIOPort.«export» d s w).2.1.exportRetry ≤ max s.exportRetry 10)
    ∧ (GPIOPort.unexport s w).2.1.exportRetry = s.exportRetry
    ∧ (GPIOPort.read s w).2.1.exportRetry = s.exportRetry
    ∧ (∀ v : Int, (GPIOPort.write v s w).2.1.exportRetry = s.exportRetry)
    ∧ (∀ gpioOffset n s0, GPIOPort.mkState gpioOffset n = Except.ok s0 →
        s0.exportRetry = 0) := by
  refine ⟨?_, ?_, ?_, ?_, ?_⟩
  · by_cases hd : d = "in" ∨ d = "out"
    · exact (export_state_facts d (10 - s.exportRetry) s w (le_refl _) hd).2.2
    · rw [export_invalid_direction d s w hd]
      simp
  · unfold GPIOPort.unexport World.fsWriteFile
    cases h : w.oracle w.clock <;> simp [h]
  · unfold GPIOPort.read
    split <;> try rfl
    split <;> try rfl
    split <;> try rfl
    split <;> try rfl
    simp only [World.fsReadFile]
    split <;> try rfl
    split <;> try rfl
    split <;> rfl
  · intro v
    unfold GPIOPort.write
    split <;> try rfl
    split <;> try rfl
    split <;> try rfl
    split <;> try rfl
    split <;> try rfl
    simp only [World.fsWriteFile]
    split <;> rfl
  · intro gpioOffset n s0 h
    unfold GPIOPort.mkState at h
    cases hp : parseUint16 (toString n) <;> rw [hp] at h
    · cases h
    · cases h
      rfl

/-- C10 witness: the theorem instantiated on the fresh port 7. -/
theorem c10_witness :
    portFresh.exportRetry
        ≤ (GPIOPort.«export» "in" portFresh worldErr).2.1.exportRetry
    ∧ (GPIOPort.unexport portFresh worldErr).2.1.exportRetry
        = portFresh.exportRetry
    ∧ (GPIOPort.read portFresh worldErr).2.1.exportRetry
        = portFresh.exportRetry
    ∧ (GPIOPort.write 1 portFresh worldErr).2.1.exportRetry
        = portFresh.exportRetry
    ∧ portFresh.exportRetry = 0 :=
  have H := c10_export_retry_counter "in" portFresh worldErr
  ⟨H.1.1, H.2.1, H.2.2.1, H.2.2.2.1 1, H.2.2.2.2 0 7 portFresh rfl⟩


/-- `unexport` attempts exactly one fs write (logged whether or not it
succeeds) and raises only `OperationError`. -/
theorem unexport_log (s : GPIOPort) (w : World) :
    (GPIOPort.unexport s w).2.2.log = w.log ++ [unexportEvent s]
    ∧ ((GPIOPort.unexport s w).1 = Except.ok ()
       ∨ ∃ m, (GPIOPort.unexport s w).1
           = Except.error (JSError.OperationError m)) := by
  unfold GPIOPort.unexport World.fsWriteFile unexportEvent
  cases h : w.oracle w.clock <;> simp [h]

/-- The worker of `unexportAll` preserves the key sequence of the registry
unconditionally (ports are updated in place, never added or removed). -/
theorem unexportAllGo_keys :
    ∀ (ports acc : List (Nat × GPIOPort)) (fe : Option JSError) (w : World),
      (GPIOAccess.unexportAllGo acc fe ports w).2.1.map Prod.fst
        = acc.reverse.map Prod.fst ++ ports.map Prod.fst := by
  intro ports
  induction ports with
  | nil =>
    intro acc fe w
    simp [GPIOAccess.unexportAllGo]
  | cons p rest ih =>
    intro acc fe w
    obtain ⟨n, s⟩ := p
    cases hse : s.exported with
    | opError m => simp [GPIOAccess.unexportAllGo, hse]
    | val b =>
      cases b
      · simp [GPIOAccess.unexportAllGo, hse, ih]
      · simp [GPIOAccess.unexportAllGo, hse, ih]

/-- Worker facts under the assumption that every port's exported state is a
known boolean: the log grows by exactly the unexport writes of the
flag-`true` ports, in registry order; flag-`false` ports are carried through
unchanged; any accumulated error is an `OperationError`. -/
theorem unexportAllGo_facts :
    ∀ (ports acc : List (Nat × GPIOPort)) (fe : Option JSError) (w : World),
      (∀ p ∈ ports, ExportedField.isKnown p.2.exported = true) →
      (fe = none ∨ ∃ m, fe = some (JSError.OperationError m)) →
      ((GPIOAccess.unexportAllGo acc fe ports w).2.2.log
         = w.log ++ (ports.filter
             (fun p => decide (p.2.exported = ExportedField.val true))).map
             (fun p => unexportEvent p.2))
      ∧ (∀ q ∈ acc, q ∈ (GPIOAccess.unexportAllGo acc fe ports w).2.1)
      ∧ (∀ p ∈ ports, p.2.exported = ExportedField.val false →
           p ∈ (GPIOAccess.unexportAllGo acc fe ports w).2.1)
      ∧ ((GPIOAccess.unexportAllGo acc fe ports w).1 = Except.ok ()
         ∨ ∃ m, (GPIOAccess.unexportAllGo acc fe ports w).1
             = Except.error (JSError.OperationError m)) := by
  intro ports
  induction ports with
  | nil =>
    intro acc fe w _ hfe
    refine ⟨by simp [GPIOAccess.unexportAllGo], ?_, by simp, ?_⟩
    · intro q hq
      simp [GPIOAccess.unexportAllGo, hq]
    · rcases hfe with h | ⟨m, h⟩ <;> simp [GPIOAccess.unexportAllGo, h]
  | cons p rest ih =>
    intro acc fe w h hfe
    obtain ⟨n, s⟩ := p
    have hs : ExportedField.isKnown s.exported = true := h (n, s) (by simp)
    have hrest : ∀ p ∈ rest, ExportedField.isKnown p.2.exported = true :=
      fun p hp => h p (by simp [hp])
    cases hse : s.exported with
    | opError m => rw [hse] at hs; cases hs
    | val b =>
      cases b
      · have hstep : GPIOAccess.unexportAllGo acc fe ((n, s) :: rest) w
            = GPIOAccess.unexportAllGo ((n, s) :: acc) fe rest w := by
          simp [GPIOAccess.unexportAllGo, hse]
        have IH := ih ((n, s) :: acc) fe w hrest hfe
        rw [hstep]
        refine ⟨?_, ?_, ?_, IH.2.2.2⟩
        · rw [IH.1]
          simp [hse]
        · intro q hq
          exact IH.2.1 q (by simp [hq])
        · intro p hp hpf
          rcases (by simpa using hp : p = (n, s) ∨ p ∈ rest) with h1 | h1
          · exact IH.2.1 p (by simp [h1])
          · exact IH.2.2.1 p h1 hpf
      · have hul := unexport_log s w
        have hstep : GPIOAccess.unexportAllGo acc fe ((n, s) :: rest) w
            = GPIOAccess.unexportAllGo ((n, (GPIOPort.unexport s w).2.1) :: acc)
                (combineFirstErr fe (GPIOPort.unexport s w).1) rest
                (GPIOPort.unexport s w).2.2 := by
          simp [GPIOAccess.unexportAllGo, hse]
        have hfe2 : combineFirstErr fe (GPIOPort.unexport s w).1 = none
            ∨ ∃ m, combineFirstErr fe (GPIOPort.unexport s w).1
                = some (JSError.OperationError m) := by
          rcases hfe with h2 | ⟨m2, h2⟩
          · subst h2
            rcases hul.2 with h3 | ⟨m3, h3⟩ <;> simp [combineFirstErr, h3]
          · subst h2
            simp [combineFirstErr]
        have IH := ih ((n, (GPIOPort.unexport s w).2.1) :: acc)
          (combineFirstErr fe (GPIOPort.unexport s w).1)
          (GPIOPort.unexport s w).2.2 hrest hfe2
        rw [hstep]
        refine ⟨?_, ?_, ?_, IH.2.2.2⟩
        · rw [IH.1, hul.1]
          simp [hse, List.append_assoc]
        · intro q hq
          exact IH.2.1 q (by simp [hq])
        · intro p hp hpf
          rcases (by simpa using hp : p = (n, s) ∨ p ∈ rest) with h1 | h1
          · rw [h1] at hpf
            rw [hse] at hpf
            simp at hpf
          · exact IH.2.2.1 p h1 hpf

/-- C2 counterexample: a registry holding one port on which `export` never
completed (its `_exported` still holds the unknown sentinel).  The claim
says such ports are skipped and do not cause `unexportAll` to raise; in
fact the `exported` getter consulted by the `map` callback throws the
stored `OperationError`, so `unexportAll` raises (no fs interaction
happens either). -/
theorem c2_counterexample :
    (GPIOAccess.unexportAll [(0, portFresh)] (worldOk "")).1
      = Except.error (JSError.OperationError "Unknown export.")
    ∧ (GPIOAccess.unexportAll [(0, portFresh)] (worldOk "")).2.2.log = [] :=
  ⟨rfl, rfl⟩

/-- C2 (amended): provided every port in the registry holds a known
exported boolean (no port still carries the unknown sentinel),
`unexportAll` performs exactly one unexport write per port whose exported
flag is `true`, in registry order; flag-`false` ports produce no filesystem
interaction and are carried through unchanged; the registry keys are
preserved; and the aggregate outcome is success or the first unexport
`OperationError`.  A port whose exported state is still the unknown
sentinel instead makes `unexportAll` raise the stored `OperationError`
(see the counterexample). -/
theorem c2_unexportAll_exported_only (ports : List (Nat × GPIOPort))
    (w : World)
    (h : ∀ p ∈ ports, ExportedField.isKnown p.2.exported = true) :
    ((GPIOAccess.unexportAll ports w).2.2.log
       = w.log ++ (ports.filter
           (fun p => decide (p.2.exported = ExportedField.val true))).map
           (fun p => unexportEvent p.2))
    ∧ ((GPIOAccess.unexportAll ports w).2.1.map Prod.fst = ports.map Prod.fst)
    ∧ (∀ p ∈ ports, p.2.exported = ExportedField.val false →
         p ∈ (GPIOAccess.unexportAll ports w).2.1)
    ∧ ((GPIOAccess.unexportAll ports w).1 = Except.ok ()
       ∨ ∃ m, (GPIOAccess.unexportAll ports w).1
           = Except.error (JSError.OperationError m)) := by
  have HF := unexportAllGo_facts ports [] none w h (Or.inl rfl)
  have HK := unexportAllGo_keys ports [] none w
  exact ⟨HF.1, by simpa using HK, HF.2.2.1, HF.2.2.2⟩

/-- C2 witness: a two-port registry — port 7 with exported flag `false`
(never successfully exported, probe stored `false`) and port 8 with flag
`true` — against an all-ok filesystem: exactly one unexport write (for
port 8) is logged. -/
theorem c2_witness :
    ((GPIOAccess.unexportAll
        [(0, { portFresh with exported := ExportedField.val false }),
         (1, { portOut with portNumber := 8 })] (worldOk "")).2.2.log
       = [] ++ ([(0, { portFresh with exported := ExportedField.val false }),
         (1, { portOut with portNumber := 8 })].filter
           (fun p => decide (p.2.exported = ExportedField.val true))).map
           (fun p => unexportEvent p.2))
    ∧ ((GPIOAccess.unexportAll
        [(0, { portFresh with exported := ExportedField.val false }),
         (1, { portOut with portNumber := 8 })] (worldOk "")).2.1.map Prod.fst
       = [(0, { portFresh with exported := ExportedField.val false }),
         (1, { portOut with portNumber := 8 })].map Prod.fst)
    ∧ (∀ p ∈ [(0, { portFresh with exported := ExportedField.val false }),
         (1, { portOut with portNumber := 8 })],
         p.2.exported = ExportedField.val false →
         p ∈ (GPIOAccess.unexportAll
           [(0, { portFresh with exported := ExportedField.val false }),
            (1, { portOut with portNumber := 8 })] (worldOk "")).2.1)
    ∧ ((GPIOAccess.unexportAll
        [(0, { portFresh with exported := ExportedField.val false }),
         (1, { portOut with portNumber := 8 })] (worldOk "")).1 = Except.ok ()
       ∨ ∃ m, (GPIOAccess.unexportAll
           [(0, { portFresh with exported := ExportedField.val false }),
            (1, { portOut with portNumber := 8 })] (worldOk "")).1
           = Except.error (JSError.OperationError m)) :=
  c2_unexportAll_exported_only
    [(0, { portFresh with exported := ExportedField.val false }),
     (1, { portOut with portNumber := 8 })] (worldOk "") (by decide)

set_option maxRecDepth 4096 in
theorem jsParseInt_toString_small :
    ∀ i : Fin 1024, jsParseInt (toString i.1) = some (i.1 : Int) := by decide


theorem parseUint16_toString_small (n : Nat) (hn : n < 1024) :
    parseUint16 (toString n) = Except.ok n := by
  unfold parseUint16
  rw [jsParseInt_toString_small ⟨n, hn⟩]
  have hcond : (0 : Int) ≤ (n : Int) ∧ (n : Int) ≤ (Uint16Max : Int) := by
    unfold Uint16Max
    constructor <;> omega
  simp [hcond]

theorem mkState_small (gpioOffset n : Nat) (hn : n < 1024) :
    GPIOPort.mkState gpioOffset n = Except.ok (freshPortState gpioOffset n) := by
  unfold GPIOPort.mkState freshPortState
  rw [parseUint16_toString_small n hn]

theorem mapM_mkState_small (gpioOffset : Nat) :
    ∀ ns : List Nat, (∀ n ∈ ns, n < 1024) →
      (ns.mapM (fun n =>
        match GPIOPort.mkState gpioOffset n with
        | Except.error e => Except.error e
        | Except.ok p => Except.ok (n, p)))
      = Except.ok (ns.map (fun n => (n, freshPortState gpioOffset n))) := by
  intro ns
  induction ns with
  | nil => intro _; rfl
  | cons n rest ih =>
    intro h
    rw [List.mapM_cons]
    rw [mkState_small gpioOffset n (h n (by simp))]
    rw [ih (fun m hm => h m (by simp [hm]))]
    simp
    rfl

/-- C9: `requestGPIOAccess` builds the registry fully populated at
construction time: one entry per representable port number 0..1023
(`GPIOPortMapSizeMax = 1024`), in numeric insertion order, each holding a
freshly constructed `GPIOPort` (both sentinels, retry 0, no value, no
timer), keys unique; and no library operation adds or removes entries
afterward — the port-level operations take a port and return a port, and
`unexportAll`, the only registry-wide operation, preserves the key sequence
exactly. -/
theorem c9_registry (gpioOffset : Nat) :
    (requestGPIOAccess gpioOffset
       = Except.ok ((List.range GPIOPortMapSizeMax).map
           (fun n => (n, freshPortState gpioOffset n))))
    ∧ (((List.range GPIOPortMapSizeMax).map
           (fun n => (n, freshPortState gpioOffset n))).map Prod.fst
         = List.range GPIOPortMapSizeMax)
    ∧ (List.range GPIOPortMapSizeMax).Nodup
    ∧ (∀ ports w, (GPIOAccess.unexportAll ports w).2.1.map Prod.fst
         = ports.map Prod.fst) := by
  refine ⟨?_, by simp [Function.comp_def], List.nodup_range _, ?_⟩
  · unfold requestGPIOAccess
    exact mapM_mkState_small gpioOffset (List.range GPIOPortMapSizeMax)
      (fun n hn => by simpa [GPIOPortMapSizeMax] using List.mem_range.mp hn)
  · intro ports w
    simpa using unexportAllGo_keys ports [] none w
